import Mathlib

/-!
# Verification of the real-time location-tracking client

A shallow embedding of the tracking client of this repository:

* the Location Update Normalizer `handleLocationUpdate`
  (component `EmployeeTracking`, function `handleLocationUpdate`);
* the room-switch logic `handleEmployeeSelect` of the same component;
* the synthetic feed controls `startTestMode` / `stopTestMode`;
* the connection manager `SocketService` (`src/services/socketService.ts`)
  as an explicit transition system over its mutable fields
  (`socket`, `isConnected`, `reconnectAttempts`) together with the
  reconnect timers the code schedules with `setTimeout`.

The JavaScript numbers flowing through these code paths are decimal
literals (coordinates parsed from decimal strings, integer ids); the code
performs no arithmetic on them, only `parseFloat`, `isNaN`, strict
comparisons with `0` and forwarding.  We therefore model a finite JS number
exactly as a decimal `Decimal` (integer mantissa over a power of ten), with
`Decimal.toRat` giving its rational value; `NaN` is a separate constructor
of `JSVal`.
-/

namespace Tracking

/-- A finite JavaScript number as it occurs in this client: an exact decimal
with value `num / 10 ^ scale` (see `Decimal.toRat`).  The client never adds
or multiplies coordinates, so this representation is lossless for every
number the embedded code paths handle. -/
structure Decimal where
  num : ℤ
  scale : ℕ
  deriving DecidableEq, Repr

/-- The rational value of a decimal. -/
def Decimal.toRat (d : Decimal) : ℚ := (d.num : ℚ) / 10 ^ d.scale

/-- JavaScript `x === 0` on a finite number: its value is zero. -/
def Decimal.isZero (d : Decimal) : Bool := d.num == 0

/-- A JavaScript value as it can appear in the `lat`/`long`/`lng` fields of a
location payload (typed `string | number` in the source): a finite number,
the number `NaN`, or a string. -/
inductive JSVal where
  | vNum (d : Decimal)
  | vNaN
  | vStr (s : String)
  deriving DecidableEq, Repr

/-- Numeric value of a list of decimal digit characters, most significant
first (the digits have already been selected with `Char.isDigit`). -/
def digitsVal (l : List Char) : ℕ :=
  l.foldl (fun a c => 10 * a + (c.toNat - 48)) 0

/-- JavaScript `parseFloat`, modelled on the inputs this client feeds it:
optional leading spaces and sign, then decimal digits with an optional
fractional part; anything after the recognised prefix is ignored, exactly as
`parseFloat` ignores trailing garbage.  `none` models the `NaN` result on a
string with no leading numeric prefix (such as the placeholder sentinels
`"lat"`, `"long"`, `"lng"`).  Exponent suffixes, which never occur in this
repository's feed, are not modelled (they count as trailing garbage). -/
def parseFloat (s : String) : Option Decimal :=
  let cs := s.data.dropWhile (fun c => c = ' ')
  let signed : Bool × List Char :=
    match cs with
    | '-' :: rest => (true, rest)
    | '+' :: rest => (false, rest)
    | _ => (false, cs)
  let ip := signed.2.takeWhile Char.isDigit
  let rest := signed.2.dropWhile Char.isDigit
  let fp : List Char :=
    match rest with
    | '.' :: rest2 => rest2.takeWhile Char.isDigit
    | _ => []
  if ip.isEmpty && fp.isEmpty then none
  else
    let mag : ℤ := digitsVal ip * 10 ^ fp.length + digitsVal fp
    some ⟨if signed.1 then -mag else mag, fp.length⟩

/-- The payload of an `updatePassengers` (location update) event, with the
fields `handleLocationUpdate` reads:
`{ lat: string|number; long?: string|number; lng?: string|number;
   rideId?: number; userId?: number; speed?: number }`. -/
structure RidePayload where
  lat : JSVal
  long : Option JSVal := none
  lng : Option JSVal := none
  rideId : Option ℤ := none
  userId : Option ℤ := none
  speed : Option Decimal := none
  deriving DecidableEq, Repr

/-- The `currentRide` React state of the tracking component:
`{ rideId: number; riderId: number; employeeName: string } | null`
(this structure is the non-`null` part). -/
structure CurrentRide where
  rideId : ℤ
  riderId : ℤ
  employeeName : String
  deriving DecidableEq, Repr

/-- The ride-mismatch part of the relevance check:
`data.rideId && data.rideId !== currentRide.rideId`.
JavaScript truthiness makes a `rideId` of `0` (and an absent one) falsy, so
the mismatch test is skipped for them. -/
def rideMismatch (ride : CurrentRide) (d : RidePayload) : Bool :=
  match d.rideId with
  | some r => r != 0 && r != ride.rideId
  | none => false

/-- The placeholder check:
`data.lat === 'lat' || data.long === 'long' || data.lat === 'long'`. -/
def isPlaceholder (d : RidePayload) : Bool :=
  d.lat == JSVal.vStr "lat" || d.long == some (JSVal.vStr "long")
    || d.lat == JSVal.vStr "long"

/-- Resolved latitude:
`typeof data.lat === 'string' ? parseFloat(data.lat) : data.lat`,
with `none` standing for `NaN`. -/
def resolveLat (d : RidePayload) : Option Decimal :=
  match d.lat with
  | JSVal.vStr s => parseFloat s
  | JSVal.vNum q => some q
  | JSVal.vNaN => none

/-- Value of a truthy non-string `long`/`lng` field, for the fallback
expression `data.long || data.lng || 0`: a finite nonzero number is truthy;
`0`, `NaN` and `undefined` are falsy. -/
def numTruthy (v : Option JSVal) : Option Decimal :=
  match v with
  | some (JSVal.vNum q) => if q.isZero then none else some q
  | _ => none

/-- Resolved longitude:
`typeof data.long === 'string' ? parseFloat(data.long) :
 typeof data.lng === 'string' ? parseFloat(data.lng) :
 (data.long || data.lng || 0)`. -/
def resolveLng (d : RidePayload) : Option Decimal :=
  match d.long with
  | some (JSVal.vStr s) => parseFloat s
  | _ =>
    match d.lng with
    | some (JSVal.vStr s) => parseFloat s
    | _ =>
      some ((numTruthy d.long).getD ((numTruthy d.lng).getD ⟨0, 0⟩))

/-- The placeholder check, the coordinate extraction and the validity check
(`isNaN(lat) || isNaN(lng) || lat === 0 || lng === 0`), i.e. everything of
`handleLocationUpdate` after the relevance check; none of it reads
`currentRide`.  The accepted update is the resolved `(lat, lng)` pair that
the code writes into the employee marker and pans the map to. -/
def checksAfterRelevance (d : RidePayload) : Option (Decimal × Decimal) :=
  if isPlaceholder d then none
  else
    match resolveLat d, resolveLng d with
    | some la, some ln =>
      if la.isZero || ln.isZero then none else some (la, ln)
    | _, _ => none

/-- The Location Update Normalizer `handleLocationUpdate`:
drops (returns `none`) when no ride is tracked, on a truthy ride mismatch,
on a placeholder coordinate, or on an invalid coordinate pair; otherwise
emits the resolved coordinates. -/
def handleLocationUpdate (cur : Option CurrentRide) (d : RidePayload) :
    Option (Decimal × Decimal) :=
  match cur with
  | none => none
  | some ride =>
    if rideMismatch ride d then none
    else checksAfterRelevance d

/-! ## The connection manager `SocketService`

`src/services/socketService.ts` keeps three mutable fields (`socket`,
`isConnected`, `reconnectAttempts`) and schedules reconnect timers with
`setTimeout` inside the `disconnect` handler; the handles of those timers
are never stored, so nothing can clear them.  We embed the service as a
transition system: a state, the events its callbacks react to, and the
externally visible actions each step performs. -/

/-- The transport handle (a `socket.io-client` `Socket`) as far as the
service reads it: whether the transport currently reports itself
connected (`socket.connected`). -/
structure Transport where
  connected : Bool
  deriving DecidableEq, Repr

/-- The mutable state of the `SocketService` singleton, plus the multiset
(here: list, in scheduling order) of reconnect-timer delays scheduled with
`setTimeout` and not yet fired.  The source never stores those timer
handles, so no transition can remove a pending timer except its firing. -/
structure ServiceState where
  socket : Option Transport
  isConnected : Bool
  reconnectAttempts : ℕ
  pendingReconnects : List ℕ
  deriving DecidableEq, Repr

/-- The state of the freshly constructed service. -/
def initialService : ServiceState := ⟨none, false, 0, []⟩

/-- `maxReconnectAttempts = 5` in the source. -/
def maxReconnectAttempts : ℕ := 5

/-- The occurrences the service reacts to: its two public lifecycle methods
and the transport callbacks registered in `connect()`. -/
inductive SockEvent where
  | connectCall        -- a call of `socketService.connect()`
  | transportOpen      -- the transport fires `connect`
  | transportError     -- the transport fires `connect_error`
  | unexpectedClose    -- `disconnect` with a reason ≠ `io client disconnect`
  | disconnectCall     -- a call of `socketService.disconnect()`
  | reconnectTimerFire -- a pending reconnect `setTimeout` callback runs
  deriving DecidableEq, Repr

/-- Externally visible actions of a step. -/
inductive SockAction where
  | resolveNow                   -- `connect()` resolved immediately
  | openTransport                -- `connect()` opened a fresh transport
  | scheduleReconnect (delayMs : ℕ) -- the disconnect handler set a timer
  deriving DecidableEq, Repr

/-- The body of `connect()`: if the current transport reports itself
connected, resolve immediately; otherwise open a fresh transport
(`io(SOCKET_URL, { ..., forceNew: true })`), initially unconnected. -/
def connectStep (s : ServiceState) : ServiceState × List SockAction :=
  match s.socket with
  | some t =>
    if t.connected then (s, [SockAction.resolveNow])
    else ({ s with socket := some ⟨false⟩ }, [SockAction.openTransport])
  | none => ({ s with socket := some ⟨false⟩ }, [SockAction.openTransport])

/-- One transition of the service.  Transport events only fire while a
transport exists.  `disconnectCall` models `disconnect()`: the deliberate
`socket.disconnect()` makes the socket fire `disconnect` with reason
`io client disconnect`, which the handler excludes from the reconnection
policy; then the method nulls the socket and clears the flag.  Pending
reconnect timers are untouched (the source holds no handle to them).
`reconnectTimerFire` models a scheduled timer running `this.connect()`. -/
def step (s : ServiceState) (e : SockEvent) : ServiceState × List SockAction :=
  match e with
  | SockEvent.connectCall => connectStep s
  | SockEvent.transportOpen =>
    match s.socket with
    | some _ =>
      ({ s with socket := some ⟨true⟩, isConnected := true,
                reconnectAttempts := 0 }, [])
    | none => (s, [])
  | SockEvent.transportError =>
    match s.socket with
    | some _ => ({ s with isConnected := false }, [])
    | none => (s, [])
  | SockEvent.unexpectedClose =>
    match s.socket with
    | some _ =>
      if s.reconnectAttempts < maxReconnectAttempts then
        ({ s with socket := some ⟨false⟩, isConnected := false,
                  reconnectAttempts := s.reconnectAttempts + 1,
                  pendingReconnects := s.pendingReconnects ++ [5000] },
         [SockAction.scheduleReconnect 5000])
      else
        ({ s with socket := some ⟨false⟩, isConnected := false }, [])
    | none => (s, [])
  | SockEvent.disconnectCall =>
    match s.socket with
    | some _ => ({ s with socket := none, isConnected := false }, [])
    | none => (s, [])
  | SockEvent.reconnectTimerFire =>
    match s.pendingReconnects with
    | [] => (s, [])
    | _ :: rest => connectStep { s with pendingReconnects := rest }

/-- Run a sequence of events, accumulating the actions in order. -/
def run (s : ServiceState) : List SockEvent → ServiceState × List SockAction
  | [] => (s, [])
  | e :: es =>
    let p := step s e
    let q := run p.1 es
    (q.1, p.2 ++ q.2)

/-- `getConnectionStatus()`: the internal flag and the transport's own
report must both be true. -/
def getConnectionStatus (s : ServiceState) : Bool :=
  s.isConnected &&
    (match s.socket with
     | some t => t.connected
     | none => false)

/-! ## Room switching in the tracking component

`handleEmployeeSelect` of the tracking component, reduced to the frames it
emits through the service and the membership it records.  The service-level
methods `joinRideRoom`/`leaveRideRoom` emit only when a socket exists and
the `isConnected` flag is set, else they log and return. -/

/-- An outgoing frame of the room protocol. -/
inductive Frame where
  | joinRideRoom (rideId userId : ℤ) (role : String)
  | leaveRideRoom (rideId userId : ℤ)
  deriving DecidableEq, Repr

/-- `SocketService.joinRideRoom`: frames actually emitted. -/
def svcJoinFrames (s : ServiceState) (rideId userId : ℤ) (role : String) :
    List Frame :=
  if s.socket.isSome && s.isConnected then [Frame.joinRideRoom rideId userId role]
  else []

/-- `SocketService.leaveRideRoom`: frames actually emitted. -/
def svcLeaveFrames (s : ServiceState) (rideId userId : ℤ) : List Frame :=
  if s.socket.isSome && s.isConnected then [Frame.leaveRideRoom rideId userId]
  else []

/-- `handleEmployeeSelect(rideId, riderId, employeeName)`: leave the current
ride's room first (when one is tracked and the component believes the
socket connected), record the new ride, and join the new room unless the
component believes the socket disconnected (early return).  The result is
the ordered list of emitted frames and the new `currentRide`; marker and
modal updates are display-only and out of the model. -/
def handleEmployeeSelect (svc : ServiceState) (currentRide : Option CurrentRide)
    (isSocketConnected : Bool) (rideId riderId : ℤ) (employeeName : String) :
    List Frame × Option CurrentRide :=
  let leave : List Frame :=
    match currentRide with
    | some cr =>
      if isSocketConnected then svcLeaveFrames svc cr.rideId cr.riderId else []
    | none => []
  let newRide : Option CurrentRide := some ⟨rideId, riderId, employeeName⟩
  if !isSocketConnected then (leave, newRide)
  else (leave ++ svcJoinFrames svc rideId riderId "admin", newRide)

/-! ## The synthetic feed controls

`startTestMode`/`stopTestMode` manage a single `setInterval` handle in
`testIntervalRef.current`.  To make timer leaks observable, the embedding
also tracks the set (`live`, in creation order) of interval timers created
and not yet cleared, allocating fresh ids from `nextId`:  `setInterval`
creates a live timer and returns its id; `clearInterval id` removes it. -/

structure TestModeState where
  ref : Option ℕ
  isTestMode : Bool
  live : List ℕ
  nextId : ℕ
  deriving DecidableEq, Repr

/-- The component's initial test-mode state (`testIntervalRef.current = null`). -/
def initialTestMode : TestModeState := ⟨none, false, [], 0⟩

/-- `startTestMode`: returns early when no ride is tracked; otherwise sets
the flag and overwrites `testIntervalRef.current` with a fresh interval
timer.  A previously stored timer id is overwritten without a
`clearInterval`, so its timer stays live. -/
def startTestMode (currentRide : Option CurrentRide) (st : TestModeState) :
    TestModeState :=
  match currentRide with
  | none => st
  | some _ =>
    { ref := some st.nextId
      isTestMode := true
      live := st.live ++ [st.nextId]
      nextId := st.nextId + 1 }

/-- `stopTestMode`: clears the stored interval (if any), nulls the ref and
resets the flag. -/
def stopTestMode (st : TestModeState) : TestModeState :=
  match st.ref with
  | some id =>
    { ref := none, isTestMode := false, live := st.live.erase id,
      nextId := st.nextId }
  | none => { st with isTestMode := false }

/-- JavaScript `typeof x === 'string'` on an optional payload field. -/
def isStrVal : Option JSVal → Bool
  | some (JSVal.vStr _) => true
  | _ => false

/-- `Decimal.isZero` agrees with the rational value being zero. -/
theorem Decimal.isZero_iff_toRat (d : Decimal) :
    d.isZero = true ↔ d.toRat = 0 := by
  simp [Decimal.isZero, Decimal.toRat, div_eq_zero_iff]

/-! Sanity checks: the spec's example scenarios 1–4 evaluated on the
embedded Normalizer. -/

example :
    handleLocationUpdate (some ⟨8, 3, "a"⟩)
      { lat := JSVal.vStr "24.8607", long := some (JSVal.vStr "67.0011"),
        rideId := some 8 } =
      some (⟨248607, 4⟩, ⟨670011, 4⟩) := by decide

example :
    handleLocationUpdate (some ⟨8, 3, "a"⟩)
      { lat := JSVal.vStr "lat", long := some (JSVal.vStr "long") } = none := by
  decide

example :
    handleLocationUpdate (some ⟨8, 3, "a"⟩)
      { lat := JSVal.vStr "0", long := some (JSVal.vStr "0") } = none := by
  decide

example :
    handleLocationUpdate (some ⟨8, 3, "a"⟩)
      { lat := JSVal.vStr "24.86", long := some (JSVal.vStr "67.00"),
        rideId := some 99 } = none := by decide

/-- The remaining checks ignore the payload's `rideId`: they only read the
coordinate fields. -/
theorem checksAfterRelevance_rideId_irrel (d : RidePayload) :
    checksAfterRelevance { d with rideId := none } = checksAfterRelevance d := by
  cases d
  rfl

/-! ## Claims about the Normalizer -/

/-- C1, counterexample: with membership on ride 8, the payload
`{lat: "0", long: "67.0011", rideId: 8}` passes the relevance and
placeholder checks and both coordinates parse to finite numbers
(`0` and `67.0011`), which are not both zero; yet the Normalizer drops it,
because the validity check rejects a zero in *either* coordinate
(`lat === 0 || lng === 0`), not only in both. -/
theorem c1_counterexample :
    rideMismatch ⟨8, 1, "emp"⟩
        { lat := JSVal.vStr "0", long := some (JSVal.vStr "67.0011"),
          rideId := some 8 } = false
    ∧ isPlaceholder
        { lat := JSVal.vStr "0", long := some (JSVal.vStr "67.0011"),
          rideId := some 8 } = false
    ∧ resolveLat
        { lat := JSVal.vStr "0", long := some (JSVal.vStr "67.0011"),
          rideId := some 8 } = some ⟨0, 0⟩
    ∧ resolveLng
        { lat := JSVal.vStr "0", long := some (JSVal.vStr "67.0011"),
          rideId := some 8 } = some ⟨670011, 4⟩
    ∧ Decimal.toRat ⟨0, 0⟩ = 0
    ∧ Decimal.toRat ⟨670011, 4⟩ ≠ 0
    ∧ handleLocationUpdate (some ⟨8, 1, "emp"⟩)
        { lat := JSVal.vStr "0", long := some (JSVal.vStr "67.0011"),
          rideId := some 8 } = none := by
  refine ⟨by decide, by decide, by decide, by decide, ?_, ?_, by decide⟩
  · norm_num [Decimal.toRat]
  · norm_num [Decimal.toRat]

/-- C1, amended: for payloads passing the relevance and placeholder checks
whose coordinates both parse to finite numbers, the Normalizer drops the
update if and only if *at least one* resolved coordinate equals exactly 0;
otherwise it accepts and emits the resolved pair. -/
theorem c1_validity_zero (ride : CurrentRide) (d : RidePayload)
    (la ln : Decimal)
    (hm : rideMismatch ride d = false) (hp : isPlaceholder d = false)
    (hla : resolveLat d = some la) (hln : resolveLng d = some ln) :
    (handleLocationUpdate (some ride) d = none ↔
      la.toRat = 0 ∨ ln.toRat = 0)
    ∧ (¬(la.toRat = 0 ∨ ln.toRat = 0) →
        handleLocationUpdate (some ride) d = some (la, ln)) := by
  have hla0 := Decimal.isZero_iff_toRat la
  have hln0 := Decimal.isZero_iff_toRat ln
  simp only [handleLocationUpdate, checksAfterRelevance, hm, hp, hla, hln,
    Bool.false_eq_true, if_false]
  by_cases h1 : la.isZero <;> by_cases h2 : ln.isZero <;>
    simp_all [Decimal.isZero]

/-- C1, witness. -/
theorem c1_witness :
    (handleLocationUpdate (some ⟨8, 1, "emp"⟩)
        { lat := JSVal.vStr "24.8607", long := some (JSVal.vStr "67.0011") } =
        none ↔
      Decimal.toRat ⟨248607, 4⟩ = 0 ∨ Decimal.toRat ⟨670011, 4⟩ = 0)
    ∧ (¬(Decimal.toRat ⟨248607, 4⟩ = 0 ∨ Decimal.toRat ⟨670011, 4⟩ = 0) →
        handleLocationUpdate (some ⟨8, 1, "emp"⟩)
          { lat := JSVal.vStr "24.8607",
            long := some (JSVal.vStr "67.0011") } =
          some (⟨248607, 4⟩, ⟨670011, 4⟩)) :=
  c1_validity_zero ⟨8, 1, "emp"⟩ _ _ _ (by decide) (by decide) (by decide)
    (by decide)

/-- C2, counterexample: with membership on ride 5, a payload carrying
`rideId: 0` — a rideId different from the active membership's — is
accepted, because `data.rideId && ...` makes a `rideId` of `0` falsy and
skips the mismatch check; the claim says any carried differing rideId is
dropped. -/
theorem c2_counterexample :
    RidePayload.rideId
        { lat := JSVal.vStr "24.86", long := some (JSVal.vStr "67.00"),
          rideId := some 0 } = some 0
    ∧ (0 : ℤ) ≠ 5
    ∧ handleLocationUpdate (some ⟨5, 1, "emp"⟩)
        { lat := JSVal.vStr "24.86", long := some (JSVal.vStr "67.00"),
          rideId := some 0 } = some (⟨2486, 2⟩, ⟨6700, 2⟩) := by decide

/-- C2, amended: with no membership every update is dropped; with a
membership, a payload carrying a *nonzero* rideId different from the
membership's is dropped; a payload carrying no rideId is processed by the
remaining (placeholder and validity) checks alone. -/
theorem c2_relevance (ride : CurrentRide) (d : RidePayload) :
    handleLocationUpdate none d = none
    ∧ (∀ r : ℤ, d.rideId = some r → r ≠ 0 → r ≠ ride.rideId →
        handleLocationUpdate (some ride) d = none)
    ∧ (d.rideId = none →
        handleLocationUpdate (some ride) d = checksAfterRelevance d) := by
  refine ⟨rfl, ?_, ?_⟩
  · intro r hr h0 hne
    have : rideMismatch ride d = true := by
      simp [rideMismatch, hr, h0, hne]
    simp [handleLocationUpdate, this]
  · intro hr
    simp [handleLocationUpdate, rideMismatch, hr]

/-- C2, witness. -/
theorem c2_witness :
    handleLocationUpdate (some ⟨5, 1, "emp"⟩)
      { lat := JSVal.vStr "24.86", rideId := some 9 } = none
    ∧ handleLocationUpdate (some ⟨5, 1, "emp"⟩)
        { lat := JSVal.vStr "24.86", long := some (JSVal.vStr "67.00") } =
      checksAfterRelevance
        { lat := JSVal.vStr "24.86", long := some (JSVal.vStr "67.00") } :=
  ⟨(c2_relevance ⟨5, 1, "emp"⟩ _).2.1 9 rfl (by decide) (by decide),
   (c2_relevance ⟨5, 1, "emp"⟩ _).2.2 rfl⟩

/-- C10: a payload whose `rideId` is `0` (falsy) skips the ride-mismatch
check and is processed exactly as if it carried no rideId, for any active
membership. -/
theorem c10_zero_rideId (ride : CurrentRide) (d : RidePayload)
    (h : d.rideId = some 0) :
    rideMismatch ride d = false
    ∧ handleLocationUpdate (some ride) d =
        handleLocationUpdate (some ride) { d with rideId := none } := by
  have hm : rideMismatch ride d = false := by simp [rideMismatch, h]
  have hm2 : rideMismatch ride { d with rideId := none } = false := by
    cases d
    simp [rideMismatch]
  refine ⟨hm, ?_⟩
  simp [handleLocationUpdate, hm, hm2, checksAfterRelevance_rideId_irrel]

/-- C10, witness: membership on ride 5, payload rideId 0 — the mismatch
check is skipped even though 0 ≠ 5 (and this payload is in fact accepted,
see the corresponding evaluation in `c2_counterexample`'s input). -/
theorem c10_witness :
    rideMismatch ⟨5, 1, "emp"⟩
        { lat := JSVal.vStr "24.86", long := some (JSVal.vStr "67.00"),
          rideId := some 0 } = false
    ∧ handleLocationUpdate (some ⟨5, 1, "emp"⟩)
        { lat := JSVal.vStr "24.86", long := some (JSVal.vStr "67.00"),
          rideId := some 0 } =
      handleLocationUpdate (some ⟨5, 1, "emp"⟩)
        { lat := JSVal.vStr "24.86", long := some (JSVal.vStr "67.00"),
          rideId := none } :=
  c10_zero_rideId ⟨5, 1, "emp"⟩ _ rfl

/-- C5, counterexample: in the payload
`{lat: "24", long: 5, lng: "7"}` the `long` field is present (the number
5), yet the resolved longitude is 7, taken from the string `lng`: the
conditional chain tests `typeof data.long === 'string'` first, so a string
`lng` takes precedence over a numeric `long`.  The claim that a present
`long` always wins, regardless of string or number, is false; the accepted
update indeed carries longitude 7. -/
theorem c5_counterexample :
    RidePayload.long
        { lat := JSVal.vStr "24", long := some (JSVal.vNum ⟨5, 0⟩),
          lng := some (JSVal.vStr "7") } = some (JSVal.vNum ⟨5, 0⟩)
    ∧ resolveLng
        { lat := JSVal.vStr "24", long := some (JSVal.vNum ⟨5, 0⟩),
          lng := some (JSVal.vStr "7") } = some ⟨7, 0⟩
    ∧ Decimal.toRat ⟨7, 0⟩ ≠ Decimal.toRat ⟨5, 0⟩
    ∧ handleLocationUpdate (some ⟨8, 1, "emp"⟩)
        { lat := JSVal.vStr "24", long := some (JSVal.vNum ⟨5, 0⟩),
          lng := some (JSVal.vStr "7") } = some (⟨24, 0⟩, ⟨7, 0⟩) := by
  refine ⟨by decide, by decide, ?_, by decide⟩
  norm_num [Decimal.toRat]

/-- C5, amended: the resolved longitude follows the source's conditional
chain — a string `long` is parsed; otherwise a string `lng` is parsed;
otherwise the first truthy (finite and nonzero) numeric value among `long`
then `lng` is used; otherwise the default 0.  So `long` takes precedence
over `lng` only when both are strings or both are numbers; a string `lng`
overrides a numeric `long`, and a zero or `NaN` `long` falls through. -/
theorem c5_longitude_resolution :
    (∀ (d : RidePayload) (s : String),
      d.long = some (JSVal.vStr s) → resolveLng d = parseFloat s)
    ∧ (∀ (d : RidePayload) (s : String), isStrVal d.long = false →
        d.lng = some (JSVal.vStr s) → resolveLng d = parseFloat s)
    ∧ (∀ (d : RidePayload) (q : Decimal), isStrVal d.lng = false →
        d.long = some (JSVal.vNum q) → q.isZero = false →
        resolveLng d = some q)
    ∧ (∀ (d : RidePayload) (q : Decimal), isStrVal d.long = false →
        numTruthy d.long = none → d.lng = some (JSVal.vNum q) →
        q.isZero = false → resolveLng d = some q)
    ∧ (∀ d : RidePayload, isStrVal d.long = false → isStrVal d.lng = false →
        numTruthy d.long = none → numTruthy d.lng = none →
        resolveLng d = some ⟨0, 0⟩) := by
  refine ⟨?_, ?_, ?_, ?_, ?_⟩
  · intro d s h
    simp [resolveLng, h]
  · intro d s hlong hlng
    rcases hl : d.long with _ | v
    · simp [resolveLng, hl, hlng]
    · cases v <;> simp_all [resolveLng, isStrVal]
  · intro d q hlng hlong hq
    rcases hg : d.lng with _ | w
    · simp [resolveLng, hlong, hg, numTruthy, hq]
    · cases w <;> simp_all [resolveLng, numTruthy, isStrVal]
  · intro d q hlong htr hlng hq
    rcases hl : d.long with _ | v
    · simp [resolveLng, hl, hlng, numTruthy, hq]
    · cases v <;> simp_all [resolveLng, numTruthy, isStrVal]
  · intro d hlong hlng htl htg
    rcases hl : d.long with _ | v <;> rcases hg : d.lng with _ | w
    · simp [resolveLng, hl, hg, numTruthy]
    · cases w <;> simp_all [resolveLng, numTruthy, isStrVal]
    · cases v <;> simp_all [resolveLng, numTruthy, isStrVal]
    · cases v <;> cases w <;> simp_all [resolveLng, numTruthy, isStrVal]

/-- C5, witness (the string-`lng`-over-numeric-`long` clause at the
counterexample's payload, and the plain string-`long` clause). -/
theorem c5_witness :
    resolveLng
        { lat := JSVal.vStr "24", long := some (JSVal.vNum ⟨5, 0⟩),
          lng := some (JSVal.vStr "7") } = parseFloat "7"
    ∧ resolveLng
        { lat := JSVal.vStr "24", long := some (JSVal.vStr "67.00") } =
      parseFloat "67.00" :=
  ⟨c5_longitude_resolution.2.1 _ "7" (by decide) rfl,
   c5_longitude_resolution.1 _ "67.00" rfl⟩

/-- C6: if the string from which latitude is taken (`lat`), or the string
from which longitude is taken (`long`, or `lng` when `long` is not a
string), is a non-numeric sentinel (anything `parseFloat` maps to `NaN`,
in particular the feed's placeholders `"lat"`, `"long"`, `"lng"`), the
Normalizer drops the update and emits nothing, in every membership
state — either the placeholder check or the validity check rejects it. -/
theorem c6_placeholder_drop (cur : Option CurrentRide) (d : RidePayload)
    (s : String) (hs : parseFloat s = none)
    (h : d.lat = JSVal.vStr s ∨ d.long = some (JSVal.vStr s) ∨
        (isStrVal d.long = false ∧ d.lng = some (JSVal.vStr s))) :
    handleLocationUpdate cur d = none := by
  cases cur with
  | none => rfl
  | some ride =>
    suffices hcr : checksAfterRelevance d = none by
      simp [handleLocationUpdate, hcr]
    by_cases hp : isPlaceholder d
    · simp [checksAfterRelevance, hp]
    · rcases h with h | h | ⟨h1, h2⟩
      · have hla : resolveLat d = none := by simp [resolveLat, h, hs]
        simp [checksAfterRelevance, hp, hla]
      · have hln : resolveLng d = none := by simp [resolveLng, h, hs]
        rcases hla : resolveLat d with _ | la <;>
          simp [checksAfterRelevance, hp, hla, hln]
      · have hln : resolveLng d = none := by
          rcases hl : d.long with _ | v
          · simp [resolveLng, hl, h2, hs]
          · cases v <;> simp_all [resolveLng, isStrVal]
        rcases hla : resolveLat d with _ | la <;>
          simp [checksAfterRelevance, hp, hla, hln]

/-- C6, witness: the feed's actual placeholder payload
`{lat: "lat", long: "long"}`. -/
theorem c6_witness :
    handleLocationUpdate (some ⟨8, 1, "emp"⟩)
      { lat := JSVal.vStr "lat", long := some (JSVal.vStr "long") } = none :=
  c6_placeholder_drop (some ⟨8, 1, "emp"⟩) _ "lat" (by decide) (Or.inl rfl)

/-! ## Claims about the connection manager -/

/-- `connect()` never changes the attempt counter or the pending timers,
and never schedules a reconnect itself. -/
theorem connectStep_frame (s : ServiceState) :
    (connectStep s).1.reconnectAttempts = s.reconnectAttempts
    ∧ (connectStep s).1.pendingReconnects = s.pendingReconnects
    ∧ ∀ d : ℕ, SockAction.scheduleReconnect d ∉ (connectStep s).2 := by
  rcases hs : s.socket with _ | t
  · simp [connectStep, hs]
  · rcases ht : t.connected <;> simp [connectStep, hs, ht]

/-- Once the attempt counter has reached the maximum, any event other than
a successful transport `connect` keeps it at the maximum and schedules no
reconnect. -/
theorem step_exhausted (s : ServiceState) (e : SockEvent)
    (h5 : maxReconnectAttempts ≤ s.reconnectAttempts)
    (he : e ≠ SockEvent.transportOpen) :
    maxReconnectAttempts ≤ (step s e).1.reconnectAttempts
    ∧ ∀ d : ℕ, SockAction.scheduleReconnect d ∉ (step s e).2 := by
  obtain ⟨hc1, -, hc3⟩ := connectStep_frame s
  cases e with
  | connectCall => exact ⟨by simpa [step, hc1], by simpa [step] using hc3⟩
  | transportOpen => exact absurd rfl he
  | transportError =>
    rcases hs : s.socket with _ | t <;> simp [step, hs, h5]
  | unexpectedClose =>
    rcases hs : s.socket with _ | t
    · simp [step, hs, h5]
    · have : ¬s.reconnectAttempts < maxReconnectAttempts := Nat.not_lt.mpr h5
      simp [step, hs, this, h5]
  | disconnectCall =>
    rcases hs : s.socket with _ | t <;> simp [step, hs, h5]
  | reconnectTimerFire =>
    rcases hp : s.pendingReconnects with _ | ⟨p, rest⟩
    · simp [step, hp, h5]
    · obtain ⟨hc1', -, hc3'⟩ :=
        connectStep_frame { s with pendingReconnects := rest }
      exact ⟨by simpa [step, hp, hc1'], by simpa [step, hp] using hc3'⟩

/-- From an exhausted state, no run that contains no successful transport
`connect` ever schedules a reconnect. -/
theorem run_exhausted (s : ServiceState) (es : List SockEvent)
    (h5 : maxReconnectAttempts ≤ s.reconnectAttempts)
    (he : SockEvent.transportOpen ∉ es) (d : ℕ) :
    SockAction.scheduleReconnect d ∉ (run s es).2 := by
  induction es generalizing s with
  | nil => simp [run]
  | cons e es ih =>
    have hne : e ≠ SockEvent.transportOpen := by
      intro h
      exact he (h ▸ List.mem_cons_self e es)
    obtain ⟨h5', hns⟩ := step_exhausted s e h5 hne
    have htl : SockEvent.transportOpen ∉ es := fun h =>
      he (List.mem_cons_of_mem e h)
    simp only [run, List.mem_append, not_or]
    exact ⟨hns d, ih (step s e).1 h5' htl⟩

/-- C3: the failing trace for the cancellation requirement.  Connect, let
the transport open, suffer one unexpected close (which schedules a
reconnect timer), then call `disconnect()`: the socket is gone and the
state is disconnected, but the reconnect timer is still pending — the
source never stores its handle, so `disconnect()` cannot clear it.  When
it fires it reopens a transport, and the next transport `connect` leaves
the service fully connected again: automatic reconnection after a
deliberate `disconnect()`. -/
theorem c3_reconnect_after_disconnect :
    (run initialService
        [SockEvent.connectCall, SockEvent.transportOpen,
         SockEvent.unexpectedClose, SockEvent.disconnectCall]).1 =
      ⟨none, false, 1, [5000]⟩
    ∧ (run (⟨none, false, 1, [5000]⟩ : ServiceState)
        [SockEvent.reconnectTimerFire, SockEvent.transportOpen]).2 =
      [SockAction.openTransport]
    ∧ getConnectionStatus
        (run (⟨none, false, 1, [5000]⟩ : ServiceState)
          [SockEvent.reconnectTimerFire, SockEvent.transportOpen]).1 =
      true := by decide

/-- C4: the reconnection policy.  (i) an unexpected close below the bound
schedules exactly one reconnect after 5000 ms and increments the counter;
(ii) a successful transport `connect` resets the counter to 0; (iii) once
the counter has reached the maximum, no run without a successful connect
ever schedules a reconnect; (iv) five consecutive unexpected closes after
a successful connect drive the counter to the maximum, and a sixth
schedules nothing. -/
theorem c4_reconnect_policy :
    (∀ s : ServiceState, s.socket.isSome = true →
      s.reconnectAttempts < maxReconnectAttempts →
      (step s SockEvent.unexpectedClose).2 = [SockAction.scheduleReconnect 5000]
      ∧ (step s SockEvent.unexpectedClose).1.reconnectAttempts =
          s.reconnectAttempts + 1)
    ∧ (∀ s : ServiceState, s.socket.isSome = true →
        (step s SockEvent.transportOpen).1.reconnectAttempts = 0)
    ∧ (∀ s : ServiceState, maxReconnectAttempts ≤ s.reconnectAttempts →
        ∀ es : List SockEvent, SockEvent.transportOpen ∉ es →
        ∀ d : ℕ, SockAction.scheduleReconnect d ∉ (run s es).2)
    ∧ (run initialService
        [SockEvent.connectCall, SockEvent.transportOpen,
         SockEvent.unexpectedClose, SockEvent.unexpectedClose,
         SockEvent.unexpectedClose, SockEvent.unexpectedClose,
         SockEvent.unexpectedClose]).1.reconnectAttempts =
        maxReconnectAttempts
    ∧ (step (run initialService
        [SockEvent.connectCall, SockEvent.transportOpen,
         SockEvent.unexpectedClose, SockEvent.unexpectedClose,
         SockEvent.unexpectedClose, SockEvent.unexpectedClose,
         SockEvent.unexpectedClose]).1 SockEvent.unexpectedClose).2 = [] := by
  refine ⟨?_, ?_, fun s h5 es hes d => run_exhausted s es h5 hes d,
    by decide, by decide⟩
  · intro s hs hlt
    rcases h : s.socket with _ | t
    · rw [h] at hs
      exact absurd hs (by simp)
    · constructor <;> simp [step, h, hlt]
  · intro s hs
    rcases h : s.socket with _ | t
    · rw [h] at hs
      exact absurd hs (by simp)
    · simp [step, h]

/-- C4, witness. -/
theorem c4_witness :
    (step (⟨some ⟨true⟩, true, 0, []⟩ : ServiceState)
        SockEvent.unexpectedClose).2 = [SockAction.scheduleReconnect 5000]
    ∧ (step (⟨some ⟨true⟩, true, 0, []⟩ : ServiceState)
        SockEvent.unexpectedClose).1.reconnectAttempts = 0 + 1
    ∧ (step (⟨some ⟨true⟩, true, 3, []⟩ : ServiceState)
        SockEvent.transportOpen).1.reconnectAttempts = 0
    ∧ SockAction.scheduleReconnect 5000 ∉
        (run (⟨some ⟨false⟩, false, 5, []⟩ : ServiceState)
          [SockEvent.unexpectedClose]).2 :=
  ⟨(c4_reconnect_policy.1 _ (by decide) (by decide)).1,
   (c4_reconnect_policy.1 _ (by decide) (by decide)).2,
   c4_reconnect_policy.2.1 _ (by decide),
   c4_reconnect_policy.2.2.1 _ (by decide) _ (by decide) 5000⟩

/-- C8: `connect()` is idempotent while the transport is connected — the
call resolves immediately, changes nothing and opens no transport, and two
calls in immediate succession both resolve immediately. -/
theorem c8_connect_idempotent (s : ServiceState)
    (h : s.socket = some ⟨true⟩) :
    step s SockEvent.connectCall = (s, [SockAction.resolveNow])
    ∧ run s [SockEvent.connectCall, SockEvent.connectCall] =
        (s, [SockAction.resolveNow, SockAction.resolveNow]) := by
  have h1 : step s SockEvent.connectCall = (s, [SockAction.resolveNow]) := by
    simp [step, connectStep, h]
  exact ⟨h1, by simp [run, h1]⟩

/-- C8, witness. -/
theorem c8_witness :
    step (⟨some ⟨true⟩, true, 0, []⟩ : ServiceState) SockEvent.connectCall =
      (⟨some ⟨true⟩, true, 0, []⟩, [SockAction.resolveNow])
    ∧ run (⟨some ⟨true⟩, true, 0, []⟩ : ServiceState)
        [SockEvent.connectCall, SockEvent.connectCall] =
      (⟨some ⟨true⟩, true, 0, []⟩,
        [SockAction.resolveNow, SockAction.resolveNow]) :=
  c8_connect_idempotent _ rfl

/-! ## Claims about room switching and the synthetic feed -/

/-- C7: selecting ride B while ride A is tracked and the connection is
established emits `leaveRideRoom` for A and then `joinRideRoom` for B, in
that order in the same operation, and records B as the tracked ride. -/
theorem c7_leave_before_join (svc : ServiceState) (t : Transport)
    (rideA : CurrentRide) (rideB riderB : ℤ) (name : String)
    (hsock : svc.socket = some t) (hconn : svc.isConnected = true)
    (_hdiff : rideA.rideId ≠ rideB) :
    (handleEmployeeSelect svc (some rideA) true rideB riderB name).1 =
      [Frame.leaveRideRoom rideA.rideId rideA.riderId,
       Frame.joinRideRoom rideB riderB "admin"]
    ∧ (handleEmployeeSelect svc (some rideA) true rideB riderB name).2 =
      some ⟨rideB, riderB, name⟩ := by
  constructor <;>
    simp [handleEmployeeSelect, svcLeaveFrames, svcJoinFrames, hsock, hconn]

/-- C7, witness: tracking ride 8 and selecting ride 9. -/
theorem c7_witness :
    (handleEmployeeSelect (⟨some ⟨true⟩, true, 0, []⟩ : ServiceState)
        (some ⟨8, 2, "a"⟩) true 9 3 "b").1 =
      [Frame.leaveRideRoom 8 2, Frame.joinRideRoom 9 3 "admin"]
    ∧ (handleEmployeeSelect (⟨some ⟨true⟩, true, 0, []⟩ : ServiceState)
        (some ⟨8, 2, "a"⟩) true 9 3 "b").2 = some ⟨9, 3, "b"⟩ :=
  c7_leave_before_join _ ⟨true⟩ ⟨8, 2, "a"⟩ 9 3 "b" rfl rfl (by decide)

/-- C9, counterexample: with a tracked ride, starting the synthetic feed
twice from a fresh state leaves two interval timers live — the second
start overwrites `testIntervalRef.current` without a `clearInterval`, so
it is neither a no-op nor a clean restart, and two feed timers are active
at once. -/
theorem c9_counterexample :
    (startTestMode (some ⟨8, 1, "emp"⟩) initialTestMode).live = [0]
    ∧ (startTestMode (some ⟨8, 1, "emp"⟩)
        (startTestMode (some ⟨8, 1, "emp"⟩) initialTestMode)).live = [0, 1]
    ∧ (startTestMode (some ⟨8, 1, "emp"⟩)
        (startTestMode (some ⟨8, 1, "emp"⟩) initialTestMode)).live.length =
      2 := by decide

/-- C9, amended: `stopTestMode` cancels exactly the stored timer and nulls
the ref; `startTestMode` with no tracked ride is a no-op; but starting
while a timer is stored appends a fresh live timer without cancelling the
stored one, which stays live — the generator can leak its previous timer
and run two timers concurrently. -/
theorem c9_feed_timers (st : TestModeState) (r : CurrentRide) (id : ℕ)
    (h : st.ref = some id) :
    (startTestMode (some r) st).live = st.live ++ [st.nextId]
    ∧ (id ∈ st.live → id ∈ (startTestMode (some r) st).live)
    ∧ stopTestMode st =
        ⟨none, false, st.live.erase id, st.nextId⟩
    ∧ startTestMode none st = st := by
  refine ⟨rfl, ?_, ?_, rfl⟩
  · intro hm
    exact List.mem_append_left _ hm
  · simp [stopTestMode, h]

/-- C9, witness. -/
theorem c9_witness :
    (startTestMode (some ⟨8, 1, "emp"⟩)
        (⟨some 0, true, [0], 1⟩ : TestModeState)).live = [0] ++ [1]
    ∧ ((0 : ℕ) ∈ ([0] : List ℕ) →
        (0 : ℕ) ∈ (startTestMode (some ⟨8, 1, "emp"⟩)
          (⟨some 0, true, [0], 1⟩ : TestModeState)).live)
    ∧ stopTestMode (⟨some 0, true, [0], 1⟩ : TestModeState) =
        ⟨none, false, ([0] : List ℕ).erase 0, 1⟩
    ∧ startTestMode none (⟨some 0, true, [0], 1⟩ : TestModeState) =
        ⟨some 0, true, [0], 1⟩ :=
  c9_feed_timers ⟨some 0, true, [0], 1⟩ ⟨8, 1, "emp"⟩ 0 rfl

end Tracking
